import Mathlib

/-!
Verification development for the allyend crawler-monitoring engine
(`app/routers/crawlers.py` and the data model in `app/models.py`).

Datetimes are embedded as integer timestamps (seconds); `now()` is always
passed explicitly so every translated function is pure.  Database rows are
embedded as Lean structures and tables as lists of rows, in insertion
(primary-key) order.  Fallible endpoints return `Except String`.
-/

namespace Allyend

/-! ## Status deriver (`_compute_status`) -/

/-- `HEARTBEAT_ONLINE_SECONDS = 5 * 60`. -/
def HEARTBEAT_ONLINE_SECONDS : Int := 5 * 60

/-- `HEARTBEAT_WARN_SECONDS = 15 * 60`. -/
def HEARTBEAT_WARN_SECONDS : Int := 15 * 60

/-- `_compute_status(last_heartbeat)`, with the implicit `now()` made an
explicit argument.  Returns the status strings used by the source. -/
def computeStatus (nowT : Int) (lastHeartbeat : Option Int) : String :=
  match lastHeartbeat with
  | none => "offline"
  | some hb =>
    let delta := nowT - hb
    if delta ≤ HEARTBEAT_ONLINE_SECONDS then "online"
    else if delta ≤ HEARTBEAT_WARN_SECONDS then "warning"
    else "offline"

/-- Degradation order of the three statuses: online < warning < offline. -/
def statusRank (s : String) : Nat :=
  if s = "online" then 0 else if s = "warning" then 1 else 2

/-! ## Per-crawler log limits (`_effective_crawler_limits`) -/

/-- The relevant columns of the `Crawler` ORM model.  `heartbeat_payload`
is an opaque document; only the fields the engine reads are embedded. -/
structure Crawler where
  id : Int
  user_id : Int
  local_id : Int
  api_key_id : Option Int
  group_id : Option Int
  status : String
  status_changed_at : Option Int
  last_heartbeat : Option Int
  last_source_ip : Option String
  last_device_name : Option String
  heartbeat_payload : List (String × String)
  log_max_lines : Option Int
  log_max_bytes : Option Int
  deriving Repr, DecidableEq

/-- `int(getattr(settings, name, fallback) or fallback)`: a missing or
falsy (zero) configured value falls back to the hard-coded constant. -/
def resolveSettingInt (configured : Option Int) (fallback : Int) : Int :=
  match configured with
  | none => fallback
  | some v => if v = 0 then fallback else v

/-- The two system-wide default ceilings read from `settings`. -/
structure LimitSettings where
  DEFAULT_CRAWLER_LOG_MAX_LINES : Option Int
  DEFAULT_CRAWLER_LOG_MAX_BYTES : Option Int
  deriving Repr, DecidableEq

/-- `_effective_crawler_limits(crawler)`: effective (max_lines, max_bytes);
`none` in a component means that dimension is unlimited. -/
def effectiveCrawlerLimits (s : LimitSettings) (crawler : Crawler) :
    Option Int × Option Int :=
  let max_lines : Option Int :=
    match crawler.log_max_lines with
    | none => some (resolveSettingInt s.DEFAULT_CRAWLER_LOG_MAX_LINES 1000000)
    | some v => if v ≤ 0 then none else some v
  let max_bytes : Option Int :=
    match crawler.log_max_bytes with
    | none => some (resolveSettingInt s.DEFAULT_CRAWLER_LOG_MAX_BYTES 104857600)
    | some v => if v ≤ 0 then none else some v
  (max_lines, max_bytes)

/-! ## Alert rule target matching (`_match_alert_rule_target`) -/

/-- Channel configuration entry of an alert rule (`{type, target, enabled}`). -/
structure AlertChannel where
  ctype : Option String
  target : Option String
  enabled : Bool
  deriving Repr, DecidableEq

/-- The relevant columns of the `CrawlerAlertRule` ORM model. -/
structure AlertRule where
  id : Int
  user_id : Int
  trigger_type : String
  target_type : String
  target_ids : Option (List Int)
  consecutive_failures : Int
  cooldown_minutes : Int
  channels : List AlertChannel
  is_active : Bool
  last_triggered_at : Option Int
  deriving Repr, DecidableEq

/-- `_match_alert_rule_target(rule, crawler)`.  `rule.target_ids or []`
collapses a null id list to the empty list; a missing `api_key_id`
(`None in targets`) never matches, and a missing `group_id` is coalesced
to 0 by `crawler.group_id or 0`. -/
def matchAlertRuleTarget (rule : AlertRule) (crawler : Crawler) : Bool :=
  let targets := rule.target_ids.getD []
  if rule.target_type = "all" ∨ targets = [] then true
  else if rule.target_type = "crawler" then targets.contains crawler.id
  else if rule.target_type = "api_key" then
    match crawler.api_key_id with
    | some k => targets.contains k
    | none => false
  else if rule.target_type = "group" then targets.contains (crawler.group_id.getD 0)
  else false

/-! ## Config assignments (`_build_assignment_map`, `_resolve_assignment_from_map`,
`_get_effective_assignment`, `update_config_assignment`) -/

/-- The relevant columns of the `CrawlerConfigAssignment` ORM model. -/
structure ConfigAssignment where
  id : Int
  user_id : Int
  name : String
  description : Option String
  format : String
  content : String
  version : Int
  is_active : Bool
  target_type : String
  target_id : Int
  template_id : Option Int
  deriving Repr, DecidableEq

/-- The `or_(*conditions)` filter of `_build_assignment_map`: the row's
target belongs to one of the requested id lists of its kind. -/
def assignmentCondMatches (crawlerIds apiKeyIds groupIds : List Int)
    (a : ConfigAssignment) : Bool :=
  (a.target_type = "crawler" ∧ a.target_id ∈ crawlerIds) ∨
  (a.target_type = "api_key" ∧ a.target_id ∈ apiKeyIds) ∨
  (a.target_type = "group" ∧ a.target_id ∈ groupIds)

/-- `_build_assignment_map(db, user_id, ...)` as a lookup function: the
query keeps the owner's `is_active` rows matching some condition, and the
dict insertion loop makes the last row of the result win for each
`(target_type, target_id)` key.  With no conditions the map is empty. -/
def buildAssignmentMap (rows : List ConfigAssignment) (userId : Int)
    (crawlerIds apiKeyIds groupIds : List Int) :
    String → Int → Option ConfigAssignment :=
  fun ttype tid =>
    if crawlerIds = [] ∧ apiKeyIds = [] ∧ groupIds = [] then none
    else
      ((rows.filter fun a =>
          a.user_id = userId ∧ a.is_active ∧
            assignmentCondMatches crawlerIds apiKeyIds groupIds a).reverse).find?
        fun a => a.target_type = ttype ∧ a.target_id = tid

/-- `_resolve_assignment_from_map(assignments, crawler)`.  The source
guards the credential and group lookups with Python truthiness
(`if crawler.api_key_id:`), so a null or zero id skips that level. -/
def resolveAssignmentFromMap (m : String → Int → Option ConfigAssignment)
    (crawler : Crawler) : Option ConfigAssignment :=
  match m "crawler" crawler.id with
  | some a => some a
  | none =>
    match
      (match crawler.api_key_id with
       | some k => if k = 0 then none else m "api_key" k
       | none => none) with
    | some a => some a
    | none =>
      match crawler.group_id with
      | some g => if g = 0 then none else m "group" g
      | none => none

/-- `[crawler.api_key_id] if crawler.api_key_id else []` (Python
truthiness: a null or zero id contributes nothing). -/
def crawlerKeyIds (crawler : Crawler) : List Int :=
  match crawler.api_key_id with
  | some k => if k = 0 then [] else [k]
  | none => []

/-- `[crawler.group_id] if crawler.group_id else []`. -/
def crawlerGroupIds (crawler : Crawler) : List Int :=
  match crawler.group_id with
  | some g => if g = 0 then [] else [g]
  | none => []

/-- `_get_effective_assignment(db, user_id, crawler)`. -/
def getEffectiveAssignment (rows : List ConfigAssignment) (userId : Int)
    (crawler : Crawler) : Option ConfigAssignment :=
  resolveAssignmentFromMap
    (buildAssignmentMap rows userId [crawler.id] (crawlerKeyIds crawler)
      (crawlerGroupIds crawler))
    crawler

/-- An assignment row that is eligible (owner, active) and targets the
given `(target_type, target_id)`. -/
def activeAt (uid : Int) (ttype : String) (tid : Int) (a : ConfigAssignment) : Prop :=
  a.user_id = uid ∧ a.is_active = true ∧ a.target_type = ttype ∧ a.target_id = tid

/-- The whitespace set of Python's `str.strip()`. -/
def pyWhitespace : List Char := [' ', '\t', '\n', '\r', '\x0b', '\x0c']

/-- Python's `str.strip()`: drop leading and trailing whitespace. -/
def pyStrip (s : String) : String :=
  String.mk
    (((s.data.dropWhile fun ch => pyWhitespace.contains ch).reverse.dropWhile
        fun ch => pyWhitespace.contains ch).reverse)

/-- `_normalize_config_format(value)`: `(value or "json").lower()`, then
anything other than yaml becomes json. -/
def normalizeConfigFormat (value : Option String) : String :=
  let lowered :=
    (match value with
     | none => "json"
     | some v => if v = "" then "json" else v).toLower
  if lowered = "yaml" then "yaml" else "json"

/-- Body of the `CrawlerConfigAssignmentUpdate` PATCH payload. -/
structure AssignmentUpdate where
  name : Option String
  description : Option String
  format : Option String
  content : Option String
  template_id : Option Int
  is_active : Option Bool
  deriving Repr, DecidableEq

/-- The `payload.name` branch of `update_config_assignment`: a supplied
name is stripped, an empty result is a 400. -/
def applyAssignmentName (payload : AssignmentUpdate) (a : ConfigAssignment) :
    Except String ConfigAssignment :=
  match payload.name with
  | none => pure a
  | some n =>
    let newName := pyStrip n
    if newName = "" then throw "400 empty name" else pure { a with name := newName }

/-- The `payload.description` branch. -/
def applyAssignmentDescription (payload : AssignmentUpdate)
    (a : ConfigAssignment) : ConfigAssignment :=
  match payload.description with
  | none => a
  | some d => { a with description := some d }

/-- The `payload.format` branch. -/
def applyAssignmentFormat (payload : AssignmentUpdate) (a : ConfigAssignment) :
    ConfigAssignment :=
  match payload.format with
  | none => a
  | some f => { a with format := normalizeConfigFormat (some f) }

/-- The `payload.content` branch: supplied content is stripped, an empty
result is a 400, and only content differing from the stored document is
written, bumping `version` by one. -/
def applyAssignmentContent (payload : AssignmentUpdate) (a : ConfigAssignment) :
    Except String ConfigAssignment :=
  match payload.content with
  | none => pure a
  | some c =>
    let cleaned := pyStrip c
    if cleaned = "" then throw "400 empty content"
    else if cleaned ≠ a.content then
      pure { a with content := cleaned, version := a.version + 1 }
    else pure a

/-- The `payload.template_id` branch (the template relationship update
only changes the foreign key; a zero id clears the binding — Python
truthiness of `if payload.template_id:`). -/
def applyAssignmentTemplate (payload : AssignmentUpdate) (a : ConfigAssignment) :
    ConfigAssignment :=
  match payload.template_id with
  | none => a
  | some tid =>
    if tid = 0 then { a with template_id := none } else { a with template_id := some tid }

/-- The `payload.is_active` branch. -/
def applyAssignmentActive (payload : AssignmentUpdate) (a : ConfigAssignment) :
    ConfigAssignment :=
  match payload.is_active with
  | none => a
  | some flag => { a with is_active := flag }

/-- The mutation part of `update_config_assignment` applied to the fetched
assignment (the ownership lookup and template fetch are not modelled),
in the source's statement order. -/
def updateConfigAssignment (assignment : ConfigAssignment)
    (payload : AssignmentUpdate) : Except String ConfigAssignment := do
  let a ← applyAssignmentName payload assignment
  let a := applyAssignmentDescription payload a
  let a := applyAssignmentFormat payload a
  let a ← applyAssignmentContent payload a
  let a := applyAssignmentTemplate payload a
  pure (applyAssignmentActive payload a)

/-! ## Command queue (`fetch_commands`, `acknowledge_command`) -/

/-- `COMMAND_FETCH_BATCH = 5`. -/
def COMMAND_FETCH_BATCH : Nat := 5

/-- The relevant columns of the `CrawlerCommand` ORM model.  The opaque
`result` JSON document is embedded as an association list. -/
structure Command where
  id : Int
  crawler_id : Int
  command : String
  status : String
  result : List (String × String)
  created_at : Int
  processed_at : Option Int
  expires_at : Option Int
  deriving Repr, DecidableEq

/-- The WHERE clause of the `fetch_commands` query. -/
def commandPendingFresh (crawlerId : Int) (nowT : Int) (c : Command) : Bool :=
  decide (c.crawler_id = crawlerId) && decide (c.status = "pending") &&
    (match c.expires_at with
     | none => true
     | some e => decide (nowT ≤ e))

/-- `created_at` ascending, the `order_by` of `fetch_commands`. -/
def commandCreatedLe (a b : Command) : Bool :=
  a.created_at ≤ b.created_at

/-- The query of `fetch_commands` (after the crawler ownership check):
filter pending, non-expired commands of the crawler, order by
`created_at` ascending and take the batch limit. -/
def fetchCommands (store : List Command) (crawlerId : Int) (nowT : Int) :
    List Command :=
  (((store.filter (commandPendingFresh crawlerId nowT)).mergeSort
      commandCreatedLe).take COMMAND_FETCH_BATCH)

/-- Body of the `CrawlerCommandAck` payload. -/
structure CommandAck where
  status : Option String
  result : Option (List (String × String))
  deriving Repr, DecidableEq

/-- `payload.status or "done"`: a null or empty acknowledgement status
becomes the default terminal status. -/
def ackStatus (payload : CommandAck) : String :=
  match payload.status with
  | none => "done"
  | some s => if s = "" then "done" else s

/-- `payload.result or {}`. -/
def ackResult (payload : CommandAck) : List (String × String) :=
  (payload.result.getD [])

/-- The WHERE clause of the `acknowledge_command` lookup: the command id,
scoped to the crawler and — through the
`CrawlerCommand.crawler.has(user_id=...)` join over the account's
crawlers — to the api key's owner. -/
def commandOwned (crawlers : List Crawler) (userId crawlerId commandId : Int)
    (c : Command) : Bool :=
  decide (c.id = commandId) && decide (c.crawler_id = crawlerId) &&
    crawlers.any fun cr => decide (cr.id = c.crawler_id) && decide (cr.user_id = userId)

/-- The mutation of `acknowledge_command`: overwrite status, result and
`processed_at` on the fetched row. -/
def ackApply (payload : CommandAck) (nowT : Int) (c : Command) : Command :=
  { c with
    status := ackStatus payload
    result := ackResult payload
    processed_at := some nowT }

/-- `acknowledge_command` (after the api-key resolution): look up the
command, 404 when absent, otherwise overwrite status, result and
`processed_at` and commit.  `id` is the primary key, so updating every
row matching the lookup filter updates exactly the fetched row. -/
def acknowledgeCommand (store : List Command) (crawlers : List Crawler)
    (userId : Int) (crawlerId commandId : Int) (payload : CommandAck)
    (nowT : Int) : Except String (List Command) :=
  match store.find? (commandOwned crawlers userId crawlerId commandId) with
  | none => throw "404 command not found"
  | some _ =>
    pure (store.map fun c =>
      if commandOwned crawlers userId crawlerId commandId c then ackApply payload nowT c
      else c)

/-! ## Log quota enforcement (`_enforce_crawler_limits`)

A crawler's log store is embedded as the list of its messages' byte
counts in primary-key (append) order, oldest first.  `_measure_crawler_usage`
is then the pair (length, sum) and `_delete_oldest_crawler_logs n` is
`List.drop n`. -/

/-- `TRIM_CHUNK = max(1000, settings.LOG_TRIM_CHUNK_LINES or 10_000)` with
the shipped default settings. -/
def TRIM_CHUNK : Nat := max 1000 10000

/-- The `need_delete` computation of one iteration of
`_enforce_crawler_limits` for finite effective limits given the measured
usage: `min(TRIM_CHUNK, lines - max_lines)` when over the line ceiling,
a full `TRIM_CHUNK` when over the byte ceiling, combined with `max`. -/
def needDeleteCount (maxLines maxBytes : Option Nat) (lines bytes : Nat) : Nat :=
  let n1 := match maxLines with
    | some m => if m < lines then min TRIM_CHUNK (lines - m) else 0
    | none => 0
  let n2 := match maxBytes with
    | some m => if m < bytes then TRIM_CHUNK else 0
    | none => 0
  max n1 n2

/-- The `while True` loop of `_enforce_crawler_limits`, with the
`loop_guard` counter re-expressed as the remaining fuel `20 - loop_guard - 1`:
the source deletes, re-measures, increments the guard and breaks once the
guard reaches 20, so at most 20 delete rounds run.  The boolean of the
result records whether the loop exited through the guard (cap reached)
rather than through convergence (`need_delete <= 0`). -/
def enforceLoop (maxLines maxBytes : Option Nat) :
    Nat → List Nat → List Nat × Bool
  | fuel, logs =>
    let nd := needDeleteCount maxLines maxBytes logs.length logs.sum
    if nd = 0 then (logs, false)
    else
      let logs' := logs.drop nd
      match fuel with
      | 0 => (logs', true)
      | fuel' + 1 => enforceLoop maxLines maxBytes fuel' logs'

/-- `_enforce_crawler_limits`: the loop starts with `loop_guard = 0` and
breaks after the 20th delete round, i.e. with 19 units of fuel after the
first round. -/
def enforceCrawlerLimits (maxLines maxBytes : Option Nat) (logs : List Nat) :
    List Nat × Bool :=
  enforceLoop maxLines maxBytes 19 logs

/-! ## Alert engine (`_evaluate_status_rule`, `_in_cooldown`,
`_get_or_create_alert_state`, `_dispatch_alert_event`, `_evaluate_alert_rules`)
and the heartbeat endpoint.

The SMTP/HTTP sends and the database flush are the two effectful points;
their outcomes are supplied by an `ExternalBehavior` record so the
pipeline itself stays pure. -/

/-- The relevant columns of the `CrawlerAlertState` ORM model. -/
structure AlertState where
  rule_id : Int
  crawler_id : Int
  user_id : Int
  consecutive_hits : Int
  last_triggered_at : Option Int
  last_status : Option String
  deriving Repr, DecidableEq

/-- The relevant columns of the `CrawlerAlertEvent` ORM model. -/
structure AlertEvent where
  rule_id : Int
  crawler_id : Int
  user_id : Int
  triggered_at : Int
  status : String
  message : String
  channel_statuses : List String
  error : Option String
  deriving Repr, DecidableEq

/-- The relevant columns of the `CrawlerHeartbeat` ORM model. -/
structure HeartbeatEvent where
  crawler_id : Int
  api_key_id : Int
  status : String
  payload : List (String × String)
  source_ip : Option String
  device_name : Option String
  created_at : Int
  deriving Repr, DecidableEq

/-- The relevant columns of the `CrawlerRun` ORM model. -/
structure Run where
  id : Int
  crawler_id : Int
  status : String
  started_at : Int
  last_heartbeat : Option Int
  source_ip : Option String
  deriving Repr, DecidableEq

/-- Outcomes of the effectful operations reached during alert evaluation:
whether the `db.flush()` creating a missing hysteresis state raises,
whether `_dispatch_alert_event` raises, and the status an attempted
email/webhook channel send records ("sent" or "failed"). -/
structure ExternalBehavior where
  flushRaises : Bool
  dispatchRaises : Bool
  sendStatus : AlertChannel → String

/-- `_evaluate_status_rule(rule, state, previous_status, current_status)`:
returns `(triggered, message, updated state)`.  `max(rule.consecutive_failures
or 1, 1)` maps a zero (falsy) column value to 1 before clamping. -/
def evaluateStatusRule (rule : AlertRule) (state : AlertState)
    (previousStatus : Option String) (currentStatus : String) :
    Bool × String × AlertState :=
  if currentStatus ≠ "offline" then
    (false, "", { state with consecutive_hits := 0, last_status := some currentStatus })
  else
    let hits := if previousStatus ≠ some "offline" then 1 else state.consecutive_hits + 1
    let state' := { state with consecutive_hits := hits, last_status := some currentStatus }
    if hits < max (if rule.consecutive_failures = 0 then 1 else rule.consecutive_failures) 1 then
      (false, "", state')
    else
      let prev := match previousStatus with
        | none => "unknown"
        | some p => if p = "" then "unknown" else p
      (true, "status changed from " ++ prev ++ " to offline", state')

/-- `_in_cooldown(rule, state)` with `now()` explicit.
`max(rule.cooldown_minutes or 0, 0)` maps a zero value to 0. -/
def inCooldown (nowT : Int) (rule : AlertRule) (state : AlertState) : Bool :=
  let cooldown := max rule.cooldown_minutes 0
  if cooldown ≤ 0 then false
  else
    match state.last_triggered_at with
    | none => false
    | some t => decide (nowT - t < cooldown * 60)

/-- `_get_or_create_alert_state(db, rule, crawler)`: find the
`(rule, crawler)` state row or create a fresh one with zero hits; the
`db.flush()` on creation is the effectful point that can raise. -/
def getOrCreateAlertState (ext : ExternalBehavior) (states : List AlertState)
    (rule : AlertRule) (crawler : Crawler) :
    Except String (AlertState × List AlertState) :=
  match states.find? fun s =>
      decide (s.rule_id = rule.id) && decide (s.crawler_id = crawler.id) with
  | some s => pure (s, states)
  | none =>
    if ext.flushRaises then throw "flush failed"
    else
      let s : AlertState :=
        { rule_id := rule.id, crawler_id := crawler.id, user_id := rule.user_id,
          consecutive_hits := 0, last_triggered_at := none, last_status := none }
      pure (s, states ++ [s])

/-- Write an updated `(rule, crawler)` state object back into the states
table (the ORM mutates the row in place). -/
def putAlertState (states : List AlertState) (ruleId crawlerId : Int)
    (s' : AlertState) : List AlertState :=
  states.map fun s =>
    if decide (s.rule_id = ruleId) && decide (s.crawler_id = crawlerId) then s' else s

/-- The status recorded for one channel by the loop of
`_dispatch_alert_event`: disabled channels are skipped, a missing target
is a failure, email/webhook sends report the outcome supplied by the
environment, and unknown channel types are skipped. -/
def channelStatus (ext : ExternalBehavior) (ch : AlertChannel) : String :=
  if ¬ ch.enabled then "skipped"
  else
    match ch.target with
    | none => "failed"
    | some t =>
      if t = "" then "failed"
      else if ch.ctype = some "email" ∨ ch.ctype = some "webhook" then ext.sendStatus ch
      else "skipped"

/-- `_dispatch_alert_event(rule, event, crawler, ...)`: produce a result
per channel (one synthetic skipped entry when there are none) and derive
the event's overall status: failed if any channel failed, else sent if
any sent, else skipped. -/
def dispatchAlertEvent (ext : ExternalBehavior) (rule : AlertRule)
    (event : AlertEvent) : AlertEvent :=
  let results :=
    if rule.channels = [] then ["skipped"]
    else rule.channels.map (channelStatus ext)
  let status :=
    if results.any fun r => r = "failed" then "failed"
    else if results.any fun r => r = "sent" then "sent"
    else "skipped"
  { event with channel_statuses := results, status := status }

/-- The mutable database state a heartbeat request touches: the addressed
crawler row and the tables of its account. -/
structure PaDB where
  crawler : Crawler
  heartbeats : List HeartbeatEvent
  runs : List Run
  rules : List AlertRule
  states : List AlertState
  events : List AlertEvent

/-- The tail of the `for rule in rules` loop body of
`_evaluate_alert_rules`, after the hysteresis state has been loaded or
created: trigger evaluation, cooldown suppression, event creation, the
per-firing try/except around `_dispatch_alert_event`, and the post-fire
stamping.  The `payload_threshold` branch (float comparison against a
dot-path of the opaque payload) is outside the claims and left as the
no-trigger fallthrough; every status-rule path is translated. -/
def evalAlertRuleFire (ext : ExternalBehavior) (nowT : Int)
    (previousStatus : Option String) (db : PaDB) (rule : AlertRule)
    (state : AlertState) (states1 : List AlertState) : PaDB :=
  let (triggered, message, state1) :=
    if rule.trigger_type = "status_offline" then
      evaluateStatusRule rule state previousStatus db.crawler.status
    else (false, "", state)
  let db := { db with states := putAlertState states1 rule.id db.crawler.id state1 }
  if ¬ triggered ∨ inCooldown nowT rule state1 then db
  else
    let event0 : AlertEvent :=
      { rule_id := rule.id, crawler_id := db.crawler.id, user_id := rule.user_id,
        triggered_at := nowT, status := "pending", message := message,
        channel_statuses := [], error := none }
    let event1 :=
      if ext.dispatchRaises then
        { event0 with status := "failed", error := some "dispatch raised" }
      else dispatchAlertEvent ext rule event0
    let state2 := { state1 with last_triggered_at := some nowT, consecutive_hits := 0 }
    { db with
      events := db.events ++ [event1]
      states := putAlertState db.states rule.id db.crawler.id state2
      rules := db.rules.map fun r =>
        if r.id = rule.id then { r with last_triggered_at := some nowT } else r }

/-- The body of the `for rule in rules` loop of `_evaluate_alert_rules`
for one rule.  The only statement that can raise out of it is the state
load/creation (`db.flush()`); every later effect is caught in place. -/
def evalAlertRuleStep (ext : ExternalBehavior) (nowT : Int)
    (previousStatus : Option String) (db : PaDB) (rule : AlertRule) :
    Except String PaDB :=
  if ¬ matchAlertRuleTarget rule db.crawler then pure db
  else do
    let (state, states1) ← getOrCreateAlertState ext db.states rule db.crawler
    pure (evalAlertRuleFire ext nowT previousStatus db rule state states1)

/-- `_evaluate_alert_rules(db, crawler, previous_status)`: evaluate every
active rule of the crawler's owner.  A dispatch exception is caught per
firing inside the step; a flush exception propagates out of the whole
evaluation. -/
def evaluateAlertRules (ext : ExternalBehavior) (nowT : Int) (db : PaDB)
    (previousStatus : Option String) : Except String PaDB :=
  let rules := db.rules.filter fun r =>
    decide (r.user_id = db.crawler.user_id) && r.is_active
  rules.foldlM (evalAlertRuleStep ext nowT previousStatus) db

/-! ## Heartbeat endpoint (`_update_crawler_status`, `_record_heartbeat`,
`heartbeat`) -/

/-- `_update_crawler_status(crawler, heartbeat_time, source_ip, payload_status)`
with `now()` explicit.  An empty-string source ip or payload status is
falsy in the source.  The source's trailing `elif crawler.status != status`
branch re-tests the condition the `if` just found false, so it never
runs and is not reproduced. -/
def updateCrawlerStatus (crawler : Crawler) (heartbeatTime : Option Int)
    (sourceIp : Option String) (payloadStatus : Option String) (nowT : Int) :
    Crawler :=
  let c := match heartbeatTime with
    | some t => { crawler with last_heartbeat := some t }
    | none => crawler
  let c := match sourceIp with
    | some ip => if ip = "" then c else { c with last_source_ip := some ip }
    | none => c
  let statusNew := match payloadStatus with
    | some s => if s = "" then computeStatus nowT c.last_heartbeat else s
    | none => computeStatus nowT c.last_heartbeat
  if statusNew ≠ c.status then
    { c with status := statusNew, status_changed_at := some nowT }
  else c

/-- Body of the `HeartbeatPayload` request schema. -/
structure HeartbeatPayloadIn where
  status : Option String
  payload : List (String × String)
  device_name : Option String
  deriving Repr, DecidableEq

/-- The active-run mirror of the heartbeat endpoint: the `running` run of
the crawler with the greatest `started_at` (the query orders descending
and takes the first row). -/
def selectActiveRun (runs : List Run) (crawlerId : Int) : Option Run :=
  ((runs.filter fun r =>
      decide (r.crawler_id = crawlerId) && decide (r.status = "running")).mergeSort
    fun a b => decide (b.started_at ≤ a.started_at)).head?

/-- `run.last_heartbeat = current_time; run.source_ip = client_ip or run.source_ip`
applied to the selected active run, if any. -/
def mirrorActiveRun (runs : List Run) (crawlerId : Int) (nowT : Int)
    (clientIp : Option String) : List Run :=
  match selectActiveRun runs crawlerId with
  | none => runs
  | some r0 =>
    runs.map fun r =>
      if decide (r.id = r0.id) then
        { r with
          last_heartbeat := some nowT
          source_ip :=
            match clientIp with
            | some ip => if ip = "" then r.source_ip else some ip
            | none => r.source_ip }
      else r

/-- Steps 1–4 of the `heartbeat` endpoint: update the crawler's status
and aggregate last-seen fields and payload, append the HeartbeatEvent row
(`_record_heartbeat`), and mirror the heartbeat onto the active run. -/
def heartbeatSteps (nowT : Int) (apiKeyId : Int) (clientIp : Option String)
    (payload : Option HeartbeatPayloadIn) (db : PaDB) : PaDB :=
  let statusHint := payload.bind fun p => p.status
  let c1 := updateCrawlerStatus db.crawler (some nowT) clientIp statusHint nowT
  let c1 := { c1 with heartbeat_payload := (payload.map fun p => p.payload).getD [] }
  let deviceName := payload.bind fun p => p.device_name
  let c2 := match deviceName with
    | some d => if d = "" then c1 else { c1 with last_device_name := some d }
    | none => c1
  let hb : HeartbeatEvent :=
    { crawler_id := c2.id, api_key_id := apiKeyId, status := c2.status,
      payload := c2.heartbeat_payload, source_ip := clientIp,
      device_name := deviceName, created_at := nowT }
  { db with
    crawler := c2
    heartbeats := db.heartbeats ++ [hb]
    runs := mirrorActiveRun db.runs c2.id nowT clientIp }

/-- The `heartbeat` endpoint body after api-key resolution, acting on the
session's pending state: ownership check (404), steps 1–4, then step 5
(`_evaluate_alert_rules` with the pre-update status) — with no exception
handler between step 5 and the terminal `db.commit()` of the caller. -/
def heartbeatEndpoint (ext : ExternalBehavior) (nowT : Int)
    (apiKeyId apiUserId : Int) (clientIp : Option String)
    (payload : Option HeartbeatPayloadIn) (db : PaDB) :
    Except String PaDB := do
  if db.crawler.user_id ≠ apiUserId then throw "404 crawler not found"
  evaluateAlertRules ext nowT (heartbeatSteps nowT apiKeyId clientIp payload db)
    db.crawler.status

/-- One whole heartbeat request against the committed database state:
on success the endpoint's result is committed (`db.commit()`); an
exception reaches the framework before the commit, so the session rolls
back to the previously committed state.  The boolean reports whether the
request succeeded. -/
def runHeartbeatRequest (ext : ExternalBehavior) (nowT : Int)
    (apiKeyId apiUserId : Int) (clientIp : Option String)
    (payload : Option HeartbeatPayloadIn) (committed : PaDB) : PaDB × Bool :=
  match heartbeatEndpoint ext nowT apiKeyId apiUserId clientIp payload committed with
  | .ok p => (p, true)
  | .error _ => (committed, false)

/-! ## Concrete instances used by scenario theorems -/

/-- The shipped `settings` defaults (`config.py`):
`DEFAULT_CRAWLER_LOG_MAX_LINES = 1_000_000`,
`DEFAULT_CRAWLER_LOG_MAX_BYTES = 100 * 1024 * 1024`. -/
def shippedLimitSettings : LimitSettings :=
  { DEFAULT_CRAWLER_LOG_MAX_LINES := some 1000000
    DEFAULT_CRAWLER_LOG_MAX_BYTES := some 104857600 }

/-- Environment in which no effectful operation fails. -/
def extOk : ExternalBehavior :=
  { flushRaises := false, dispatchRaises := false, sendStatus := fun _ => "sent" }

/-- Environment in which the state-creating `db.flush()` inside
`_get_or_create_alert_state` raises. -/
def extEvalFail : ExternalBehavior :=
  { flushRaises := true, dispatchRaises := false, sendStatus := fun _ => "sent" }

/-- Environment in which `_dispatch_alert_event` itself raises. -/
def extDispatchFail : ExternalBehavior :=
  { flushRaises := false, dispatchRaises := true, sendStatus := fun _ => "sent" }

/-- The rule of the end-to-end alert scenario:
`{trigger_type: status_offline, consecutive_failures: 3, cooldown_minutes: 10}`,
active, matching every crawler of account 7. -/
def scenarioRule : AlertRule :=
  { id := 1, user_id := 7, trigger_type := "status_offline", target_type := "all",
    target_ids := none, consecutive_failures := 3, cooldown_minutes := 10,
    channels := [], is_active := true, last_triggered_at := none }

/-- A freshly registered crawler of account 7 (registration creates the
row with `status="offline"` and no heartbeat). -/
def scenarioCrawler : Crawler :=
  { id := 1, user_id := 7, local_id := 1, api_key_id := some 1, group_id := none,
    status := "offline", status_changed_at := some 0, last_heartbeat := none,
    last_source_ip := none, last_device_name := none, heartbeat_payload := [],
    log_max_lines := none, log_max_bytes := none }

/-- Committed database state right after registration: one crawler, one
alert rule, nothing else. -/
def scenarioDB : PaDB :=
  { crawler := scenarioCrawler, heartbeats := [], runs := [],
    rules := [scenarioRule], states := [], events := [] }

/-- A heartbeat body carrying the explicit `status="offline"` hint. -/
def offlineHeartbeat : HeartbeatPayloadIn :=
  { status := some "offline", payload := [], device_name := none }

/-- Run the offline-heartbeat request once per listed timestamp. -/
def runOfflineHeartbeats (times : List Int) : PaDB :=
  times.foldl
    (fun db t => (runHeartbeatRequest extOk t 1 7 none (some offlineHeartbeat) db).1)
    scenarioDB

/-- Heartbeat timestamps one minute apart starting at 0. -/
def minuteTimes (n : Nat) : List Int :=
  (List.range n).map fun i => (i : Int) * 60

/-- A pending, unexpired command of crawler 1. -/
def sampleCommand : Command :=
  { id := 11, crawler_id := 1, command := "pause", status := "pending",
    result := [], created_at := 5, processed_at := none, expires_at := some 100 }

/-- First acknowledgement payload of the idempotency scenario. -/
def firstAck : CommandAck :=
  { status := some "success", result := some [("pages", "10")] }

/-- Second acknowledgement payload of the idempotency scenario. -/
def secondAck : CommandAck :=
  { status := some "failed", result := none }

/-- A crawler-level config assignment of account 7 targeting crawler 1. -/
def crawlerLevelAssignment : ConfigAssignment :=
  { id := 31, user_id := 7, name := "crawler-level", description := none,
    format := "json", content := "interval: 30", version := 1, is_active := true,
    target_type := "crawler", target_id := 1, template_id := none }

/-- A credential-level config assignment of account 7 targeting api key 1. -/
def keyLevelAssignment : ConfigAssignment :=
  { crawlerLevelAssignment with
    id := 32
    name := "key-level"
    target_type := "api_key"
    target_id := 1 }

/-- A group-level config assignment of account 7 targeting group 5. -/
def groupLevelAssignment : ConfigAssignment :=
  { crawlerLevelAssignment with
    id := 33
    name := "group-level"
    target_type := "group"
    target_id := 5 }

/-- Active assignments overlapping at all three levels for the scenario
crawler (bound to api key 1) placed in group 5. -/
def overlappingAssignments : List ConfigAssignment :=
  [groupLevelAssignment, keyLevelAssignment, crawlerLevelAssignment]

/-- A PATCH payload editing only the content. -/
def contentUpdate : AssignmentUpdate :=
  { name := none, description := none, format := none,
    content := some "interval: 60", template_id := none, is_active := none }

/-- A PATCH payload editing only metadata. -/
def metadataUpdate : AssignmentUpdate :=
  { name := some "renamed", description := some "tweaked", format := none,
    content := none, template_id := none, is_active := some false }

/-- The expected result of `contentUpdate` on `crawlerLevelAssignment`. -/
def bumpedAssignment : ConfigAssignment :=
  { crawlerLevelAssignment with
    content := "interval: 60"
    version := 2 }

/-- The expected result of `metadataUpdate` on `crawlerLevelAssignment`. -/
def renamedAssignment : ConfigAssignment :=
  { crawlerLevelAssignment with
    name := "renamed"
    description := some "tweaked"
    is_active := false }

/-! # Theorems -/

/-! ## C3: the status deriver is total and monotone -/

/-- C3: the status deriver is total (every input falls into one of the
stated cases): no heartbeat gives offline, elapsed time at most 5 minutes
gives online, at most 15 minutes gives warning, more gives offline; and
for a fixed now the derived status only degrades (in the order
online < warning < offline) as elapsed time grows. -/
theorem computeStatus_total_monotone :
    (∀ nowT : Int, computeStatus nowT none = "offline") ∧
    (∀ nowT hb : Int, nowT - hb ≤ HEARTBEAT_ONLINE_SECONDS →
      computeStatus nowT (some hb) = "online") ∧
    (∀ nowT hb : Int, HEARTBEAT_ONLINE_SECONDS < nowT - hb →
      nowT - hb ≤ HEARTBEAT_WARN_SECONDS → computeStatus nowT (some hb) = "warning") ∧
    (∀ nowT hb : Int, HEARTBEAT_WARN_SECONDS < nowT - hb →
      computeStatus nowT (some hb) = "offline") ∧
    (∀ nowT e1 e2 : Int, e1 ≤ e2 →
      statusRank (computeStatus nowT (some (nowT - e1))) ≤
        statusRank (computeStatus nowT (some (nowT - e2)))) := by
  refine ⟨fun _ => rfl, ?_, ?_, ?_, ?_⟩
  · intro nowT hb h
    simp only [computeStatus]
    rw [if_pos h]
  · intro nowT hb h1 h2
    simp only [computeStatus]
    rw [if_neg (by omega), if_pos h2]
  · intro nowT hb h
    simp only [computeStatus, HEARTBEAT_ONLINE_SECONDS, HEARTBEAT_WARN_SECONDS] at *
    rw [if_neg (by omega), if_neg (by omega)]
  · intro nowT e1 e2 h
    have h1 : nowT - (nowT - e1) = e1 := by ring
    have h2 : nowT - (nowT - e2) = e2 := by ring
    simp only [computeStatus, HEARTBEAT_ONLINE_SECONDS, HEARTBEAT_WARN_SECONDS, h1, h2]
    split_ifs <;> first | decide | (exfalso; omega)

/-- Witness for C3 at a concrete input: elapsed times 100 and 400 seconds. -/
theorem computeStatus_total_monotone_witness :
    statusRank (computeStatus 1000 (some (1000 - 100))) ≤
      statusRank (computeStatus 1000 (some (1000 - 400))) :=
  computeStatus_total_monotone.2.2.2.2 1000 100 400 (by decide)

/-! ## C5: meaning of stored per-crawler limit values -/

/-- C5 counterexample: a stored limit of 0 does not fall back to the
system default — the code treats it as unlimited — and an unset (null)
stored limit does not mean unlimited — the code applies the system
default (1,000,000 lines at the shipped settings). -/
theorem effectiveCrawlerLimits_counterexample :
    (effectiveCrawlerLimits shippedLimitSettings
        { scenarioCrawler with log_max_lines := some 0, log_max_bytes := some 0 }).1
      = none ∧
    ¬ ((effectiveCrawlerLimits shippedLimitSettings
        { scenarioCrawler with log_max_lines := some 0, log_max_bytes := some 0 }).1
      = some 1000000) ∧
    (effectiveCrawlerLimits shippedLimitSettings
        { scenarioCrawler with log_max_lines := none, log_max_bytes := none }).1
      = some 1000000 ∧
    ¬ ((effectiveCrawlerLimits shippedLimitSettings
        { scenarioCrawler with log_max_lines := none, log_max_bytes := none }).1
      = none) := by
  decide

/-- C5 (amended): an unset (null) stored per-crawler limit makes the
system-wide default apply to that dimension, while a stored limit that is
less than or equal to 0 makes that dimension unlimited; a positive stored
limit is used as is.  Shown for both dimensions. -/
theorem effectiveCrawlerLimits_spec (s : LimitSettings) (c : Crawler) :
    (c.log_max_lines = none →
      (effectiveCrawlerLimits s c).1 =
        some (resolveSettingInt s.DEFAULT_CRAWLER_LOG_MAX_LINES 1000000)) ∧
    (∀ v : Int, c.log_max_lines = some v → v ≤ 0 →
      (effectiveCrawlerLimits s c).1 = none) ∧
    (∀ v : Int, c.log_max_lines = some v → 0 < v →
      (effectiveCrawlerLimits s c).1 = some v) ∧
    (c.log_max_bytes = none →
      (effectiveCrawlerLimits s c).2 =
        some (resolveSettingInt s.DEFAULT_CRAWLER_LOG_MAX_BYTES 104857600)) ∧
    (∀ v : Int, c.log_max_bytes = some v → v ≤ 0 →
      (effectiveCrawlerLimits s c).2 = none) ∧
    (∀ v : Int, c.log_max_bytes = some v → 0 < v →
      (effectiveCrawlerLimits s c).2 = some v) := by
  refine ⟨?_, ?_, ?_, ?_, ?_, ?_⟩ <;>
    first
      | (intro h; simp [effectiveCrawlerLimits, h])
      | (intro v hv h; simp [effectiveCrawlerLimits, hv, h])

/-- Witness for C5 (amended) at concrete inputs. -/
theorem effectiveCrawlerLimits_spec_witness :
    (effectiveCrawlerLimits shippedLimitSettings
        { scenarioCrawler with log_max_lines := some 0 }).1 = none :=
  (effectiveCrawlerLimits_spec shippedLimitSettings
      { scenarioCrawler with log_max_lines := some 0 }).2.1 0 rfl (by decide)

/-! ## C1: the end-to-end status_offline alert scenario -/

/-- C1 counterexample: with the rule `{status_offline, consecutive_failures
= 3, cooldown_minutes = 10}`, offline heartbeats at 0s, 60s and 120s
produce exactly one AlertEvent, a fourth at 180s produces none — but a
fifth offline heartbeat at 780s (11 minutes after the firing, outside the
cooldown) also produces none: the claim's second event does not appear,
because the counter was reset to 0 by the firing and has only climbed
back to 2. -/
theorem alertScenario_counterexample :
    (runOfflineHeartbeats [0, 60, 120]).events.length = 1 ∧
    (runOfflineHeartbeats [0, 60, 120, 180]).events.length = 1 ∧
    ¬ ((runOfflineHeartbeats [0, 60, 120, 180, 780]).events.length = 2) ∧
    ((runOfflineHeartbeats [0, 60, 120, 180, 780]).states.map
        fun s => s.consecutive_hits) = [2] := by
  decide

/-- C1 (amended): three offline heartbeats one minute apart produce
exactly one AlertEvent, which resets `consecutive_hits` to 0 and stamps
`last_triggered_at` (120s) on both the state and the rule; because of
that reset, the fourth and fifth offline heartbeats produce no further
event even outside the cooldown.  With offline heartbeats continuing
every minute, the second AlertEvent fires on the 13th heartbeat (720s) —
the first at which the counter is again at least 3 and the 10-minute
cooldown from the first firing has expired. -/
theorem alertScenario_amended :
    (runOfflineHeartbeats (minuteTimes 2)).events.length = 0 ∧
    (runOfflineHeartbeats (minuteTimes 3)).events.length = 1 ∧
    ((runOfflineHeartbeats (minuteTimes 3)).states.map
        fun s => s.consecutive_hits) = [0] ∧
    ((runOfflineHeartbeats (minuteTimes 3)).states.map
        fun s => s.last_triggered_at) = [some 120] ∧
    ((runOfflineHeartbeats (minuteTimes 3)).rules.map
        fun r => r.last_triggered_at) = [some 120] ∧
    (runOfflineHeartbeats (minuteTimes 4)).events.length = 1 ∧
    (runOfflineHeartbeats (minuteTimes 5)).events.length = 1 ∧
    (runOfflineHeartbeats [0, 60, 120, 180, 840]).events.length = 1 ∧
    (runOfflineHeartbeats (minuteTimes 12)).events.length = 1 ∧
    (runOfflineHeartbeats (minuteTimes 13)).events.length = 2 := by
  decide

/-! ## C2: commit semantics of the heartbeat request -/

/-- When the state-creating flush does not raise, the hysteresis state
load always succeeds. -/
theorem getOrCreateAlertState_ok (ext : ExternalBehavior)
    (h : ext.flushRaises = false) (states : List AlertState)
    (rule : AlertRule) (crawler : Crawler) :
    ∃ p, getOrCreateAlertState ext states rule crawler = .ok p := by
  unfold getOrCreateAlertState
  rcases hf : states.find? fun s =>
      decide (s.rule_id = rule.id) && decide (s.crawler_id = crawler.id) with _ | s
  · rw [hf, h]
    exact ⟨_, rfl⟩
  · rw [hf]
    exact ⟨_, rfl⟩

/-- The pure tail of the rule loop never touches the crawler row, the
heartbeat table or the runs table. -/
theorem evalAlertRuleFire_frame (ext : ExternalBehavior) (nowT : Int)
    (prev : Option String) (db : PaDB) (rule : AlertRule)
    (state : AlertState) (states1 : List AlertState) :
    (evalAlertRuleFire ext nowT prev db rule state states1).crawler = db.crawler ∧
    (evalAlertRuleFire ext nowT prev db rule state states1).heartbeats = db.heartbeats ∧
    (evalAlertRuleFire ext nowT prev db rule state states1).runs = db.runs := by
  unfold evalAlertRuleFire
  split
  split <;> exact ⟨rfl, rfl, rfl⟩

/-- One iteration of the rule loop succeeds whenever the flush does not
raise — in particular whatever the dispatch does — and leaves steps 1–4's
tables untouched. -/
theorem evalAlertRuleStep_ok (ext : ExternalBehavior)
    (h : ext.flushRaises = false) (nowT : Int) (prev : Option String)
    (db : PaDB) (rule : AlertRule) :
    ∃ db', evalAlertRuleStep ext nowT prev db rule = .ok db' ∧
      db'.crawler = db.crawler ∧ db'.heartbeats = db.heartbeats ∧
      db'.runs = db.runs := by
  unfold evalAlertRuleStep
  split
  · exact ⟨db, rfl, rfl, rfl, rfl⟩
  · obtain ⟨⟨s, states1⟩, hok⟩ := getOrCreateAlertState_ok ext h db.states rule db.crawler
    rw [hok]
    simp only [bind, Except.bind]
    obtain ⟨h1, h2, h3⟩ := evalAlertRuleFire_frame ext nowT prev db rule s states1
    exact ⟨_, rfl, h1, h2, h3⟩

/-- Folding the rule loop over any rule list succeeds whenever the flush
does not raise and leaves steps 1–4's tables untouched. -/
theorem evaluateAlertRules_fold_ok (ext : ExternalBehavior)
    (h : ext.flushRaises = false) (nowT : Int) (prev : Option String) :
    ∀ (rules : List AlertRule) (db : PaDB),
      ∃ db', rules.foldlM (evalAlertRuleStep ext nowT prev) db = .ok db' ∧
        db'.crawler = db.crawler ∧ db'.heartbeats = db.heartbeats ∧
        db'.runs = db.runs := by
  intro rules
  induction rules with
  | nil => exact fun db => ⟨db, rfl, rfl, rfl, rfl⟩
  | cons r rs ih =>
    intro db
    obtain ⟨db1, hstep, hc1, hh1, hr1⟩ := evalAlertRuleStep_ok ext h nowT prev db r
    obtain ⟨db2, hfold, hc2, hh2, hr2⟩ := ih db1
    refine ⟨db2, ?_, hc2.trans hc1, hh2.trans hh1, hr2.trans hr1⟩
    rw [List.foldlM_cons, hstep]
    simpa [bind, Except.bind] using hfold

/-- Step 5 as a whole succeeds whenever the flush does not raise, and
leaves steps 1–4's tables untouched. -/
theorem evaluateAlertRules_ok (ext : ExternalBehavior)
    (h : ext.flushRaises = false) (nowT : Int) (db : PaDB)
    (prev : Option String) :
    ∃ db', evaluateAlertRules ext nowT db prev = .ok db' ∧
      db'.crawler = db.crawler ∧ db'.heartbeats = db.heartbeats ∧
      db'.runs = db.runs := by
  unfold evaluateAlertRules
  exact evaluateAlertRules_fold_ok ext h nowT prev _ db

/-- Steps 1–4 append exactly one HeartbeatEvent row. -/
theorem heartbeatSteps_heartbeats_len (nowT : Int) (apiKeyId : Int)
    (clientIp : Option String) (payload : Option HeartbeatPayloadIn)
    (db : PaDB) :
    (heartbeatSteps nowT apiKeyId clientIp payload db).heartbeats.length =
      db.heartbeats.length + 1 := by
  unfold heartbeatSteps
  simp

/-- C2 counterexample: at a concrete heartbeat request in which step 5
raises (the flush creating the missing hysteresis state fails), the
request fails and the committed state still has zero HeartbeatEvent rows
— steps 1–4 were rolled back, not committed.  The same request with a
non-raising step 5 commits the row, so the raise is what lost it. -/
theorem heartbeatCommit_counterexample :
    (runHeartbeatRequest extEvalFail 0 1 7 none (some offlineHeartbeat) scenarioDB).2
      = false ∧
    (runHeartbeatRequest extEvalFail 0 1 7 none (some offlineHeartbeat)
        scenarioDB).1.heartbeats.length = 0 ∧
    (runHeartbeatRequest extOk 0 1 7 none (some offlineHeartbeat)
        scenarioDB).1.heartbeats.length = 1 := by
  decide

/-- C2 (amended): a failure of channel dispatch inside step 5 is caught
per firing, so whenever alert-rule evaluation itself does not raise — in
particular when only dispatch raises — the heartbeat request succeeds and
commits steps 1–4 (here: the appended HeartbeatEvent row together with
the crawler and run tables produced by steps 1–4).  But when the request
does fail (which happens exactly when step 5's evaluation raises before
the commit), nothing of steps 1–4 is committed: the database stays at its
previous committed state. -/
theorem heartbeatCommit_semantics (ext : ExternalBehavior) (nowT : Int)
    (apiKeyId apiUserId : Int) (clientIp : Option String)
    (payload : Option HeartbeatPayloadIn) (db : PaDB)
    (huser : db.crawler.user_id = apiUserId) :
    (ext.flushRaises = false →
      (runHeartbeatRequest ext nowT apiKeyId apiUserId clientIp payload db).2 = true ∧
      (runHeartbeatRequest ext nowT apiKeyId apiUserId clientIp payload
          db).1.heartbeats.length = db.heartbeats.length + 1) ∧
    ((runHeartbeatRequest ext nowT apiKeyId apiUserId clientIp payload db).2 = false →
      (runHeartbeatRequest ext nowT apiKeyId apiUserId clientIp payload db).1 = db) := by
  constructor
  · intro hflush
    obtain ⟨db', hok, _, hh, _⟩ :=
      evaluateAlertRules_ok ext hflush nowT
        (heartbeatSteps nowT apiKeyId clientIp payload db) db.crawler.status
    have hend : heartbeatEndpoint ext nowT apiKeyId apiUserId clientIp payload db
        = .ok db' := by
      unfold heartbeatEndpoint
      rw [if_neg (by simp [huser])]
      simpa [bind, Except.bind] using hok
    rw [runHeartbeatRequest, hend]
    refine ⟨rfl, ?_⟩
    rw [hh, heartbeatSteps_heartbeats_len]
  · intro hfail
    unfold runHeartbeatRequest at *
    rcases hend : heartbeatEndpoint ext nowT apiKeyId apiUserId clientIp payload db
      with e | p
    · rfl
    · rw [hend] at hfail
      simp at hfail

/-- Witness for C2 (amended): the third offline heartbeat fires the rule
and dispatch raises, yet the request succeeds and the heartbeat row is
committed; run on the state after two committed offline heartbeats. -/
theorem heartbeatCommit_semantics_witness :
    (runHeartbeatRequest extDispatchFail 120 1 7 none (some offlineHeartbeat)
        (runOfflineHeartbeats (minuteTimes 2))).2 = true ∧
    (runHeartbeatRequest extDispatchFail 120 1 7 none (some offlineHeartbeat)
        (runOfflineHeartbeats (minuteTimes 2))).1.heartbeats.length =
      (runOfflineHeartbeats (minuteTimes 2)).heartbeats.length + 1 :=
  (heartbeatCommit_semantics extDispatchFail 120 1 7 none (some offlineHeartbeat)
      (runOfflineHeartbeats (minuteTimes 2)) (by decide)).1 rfl

/-! ## C10: empty target id set matches everything -/

/-- C10: a rule whose `target_ids` is null or the empty list matches every
crawler, whatever its declared `target_type` — the empty id set behaves
exactly like the unconditional all filter. -/
theorem matchAlertRuleTarget_empty_matches_all (rule : AlertRule) (crawler : Crawler)
    (h : rule.target_ids = none ∨ rule.target_ids = some []) :
    matchAlertRuleTarget rule crawler = true ∧
    matchAlertRuleTarget rule crawler =
      matchAlertRuleTarget { rule with target_type := "all" } crawler := by
  rcases h with h | h <;>
    simp [matchAlertRuleTarget, h]

/-- Witness for C10: a rule of kind crawler with an empty id list and a
crawler whose id it certainly does not contain. -/
theorem matchAlertRuleTarget_empty_matches_all_witness :
    matchAlertRuleTarget { scenarioRule with target_type := "crawler", target_ids := some [] }
      scenarioCrawler = true :=
  (matchAlertRuleTarget_empty_matches_all
      { scenarioRule with target_type := "crawler", target_ids := some [] }
      scenarioCrawler (Or.inr rfl)).1

/-! ## C6: config resolution precedence -/

/-- Whatever the assignment map returns is an eligible row of the store
targeting the looked-up key. -/
theorem buildAssignmentMap_some_spec (rows : List ConfigAssignment) (uid : Int)
    (cids kids gids : List Int) (ttype : String) (tid : Int) (a : ConfigAssignment)
    (h : buildAssignmentMap rows uid cids kids gids ttype tid = some a) :
    a ∈ rows ∧ activeAt uid ttype tid a := by
  unfold buildAssignmentMap at h
  split at h
  · cases h
  · have hmem := List.mem_of_find?_eq_some h
    have hpred := List.find?_some h
    rw [List.mem_reverse, List.mem_filter] at hmem
    obtain ⟨hmem, hfilt⟩ := hmem
    simp only [decide_eq_true_eq] at hpred hfilt
    exact ⟨hmem, hfilt.1, hfilt.2.1, hpred.1, hpred.2⟩

/-- The assignment map finds a row whenever an eligible row targeting the
key is in the store and the key's id was requested. -/
theorem buildAssignmentMap_isSome (rows : List ConfigAssignment) (uid : Int)
    (cids kids gids : List Int) (ttype : String) (tid : Int)
    (hne : ¬ (cids = [] ∧ kids = [] ∧ gids = []))
    (hex : ∃ a ∈ rows, activeAt uid ttype tid a ∧
      assignmentCondMatches cids kids gids a = true) :
    ∃ a, buildAssignmentMap rows uid cids kids gids ttype tid = some a := by
  unfold buildAssignmentMap
  rw [if_neg hne]
  rw [← Option.isSome_iff_exists, List.find?_isSome]
  obtain ⟨a, ha, ⟨h1, h2, h3, h4⟩, h5⟩ := hex
  refine ⟨a, ?_, by simp [h3, h4]⟩
  rw [List.mem_reverse, List.mem_filter]
  exact ⟨ha, by simp [h1, h2, h5]⟩

/-- C6: `_get_effective_assignment` considers only active assignments of
the owner, and resolves with precedence crawler → bound credential →
group → none: (1) any returned assignment is an active row of the owner;
(2) if an active crawler-level assignment exists it is returned (in
particular, under overlap at all three levels the crawler-level one
wins); (3) with no crawler-level assignment, an existing active
assignment on the bound credential is returned; (4) with neither, an
existing active assignment on the group is returned; (5) with no active
assignment at any applicable level the no-config sentinel (`none`) is
returned. -/
theorem getEffectiveAssignment_precedence (rows : List ConfigAssignment)
    (uid : Int) (c : Crawler) :
    (∀ a, getEffectiveAssignment rows uid c = some a →
      a ∈ rows ∧ a.user_id = uid ∧ a.is_active = true) ∧
    ((∃ a ∈ rows, activeAt uid "crawler" c.id a) →
      ∃ a, getEffectiveAssignment rows uid c = some a ∧ activeAt uid "crawler" c.id a) ∧
    (∀ k, c.api_key_id = some k → k ≠ 0 →
      (¬ ∃ a ∈ rows, activeAt uid "crawler" c.id a) →
      (∃ a ∈ rows, activeAt uid "api_key" k a) →
      ∃ a, getEffectiveAssignment rows uid c = some a ∧ activeAt uid "api_key" k a) ∧
    (∀ g, c.group_id = some g → g ≠ 0 →
      (¬ ∃ a ∈ rows, activeAt uid "crawler" c.id a) →
      (∀ k, c.api_key_id = some k → ¬ ∃ a ∈ rows, activeAt uid "api_key" k a) →
      (∃ a ∈ rows, activeAt uid "group" g a) →
      ∃ a, getEffectiveAssignment rows uid c = some a ∧ activeAt uid "group" g a) ∧
    ((¬ ∃ a ∈ rows, activeAt uid "crawler" c.id a) →
      (∀ k, c.api_key_id = some k → ¬ ∃ a ∈ rows, activeAt uid "api_key" k a) →
      (∀ g, c.group_id = some g → ¬ ∃ a ∈ rows, activeAt uid "group" g a) →
      getEffectiveAssignment rows uid c = none) := by
  have hne : ¬ (([c.id] : List Int) = [] ∧ crawlerKeyIds c = [] ∧ crawlerGroupIds c = []) := by
    simp
  have hnone_of_not : ∀ (ttype : String) (tid : Int),
      (¬ ∃ a ∈ rows, activeAt uid ttype tid a) →
      buildAssignmentMap rows uid [c.id] (crawlerKeyIds c) (crawlerGroupIds c) ttype tid
        = none := by
    intro ttype tid hno
    rcases hm : buildAssignmentMap rows uid [c.id] (crawlerKeyIds c)
        (crawlerGroupIds c) ttype tid with _ | a1
    · rfl
    · obtain ⟨hmem, hact⟩ := buildAssignmentMap_some_spec rows uid _ _ _ _ _ _ hm
      exact absurd ⟨a1, hmem, hact⟩ hno
  refine ⟨?_, ?_, ?_, ?_, ?_⟩
  · -- (1) soundness of any returned assignment
    intro a h
    unfold getEffectiveAssignment resolveAssignmentFromMap at h
    rcases hm1 : buildAssignmentMap rows uid [c.id] (crawlerKeyIds c)
        (crawlerGroupIds c) "crawler" c.id with _ | a1
    · rcases capi : c.api_key_id with _ | k
      · rcases cgr : c.group_id with _ | g
        · simp [hm1, capi, cgr] at h
        · by_cases hg0 : g = 0
          · simp [hm1, capi, cgr, hg0] at h
          · simp [hm1, capi, cgr, hg0] at h
            obtain ⟨hmem, h1, h2, _⟩ := buildAssignmentMap_some_spec rows uid _ _ _ _ _ _ h
            exact ⟨hmem, h1, h2⟩
      · by_cases hk0 : k = 0
        · rcases cgr : c.group_id with _ | g
          · simp [hm1, capi, cgr, hk0] at h
          · by_cases hg0 : g = 0
            · simp [hm1, capi, cgr, hk0, hg0] at h
            · simp [hm1, capi, cgr, hk0, hg0] at h
              obtain ⟨hmem, h1, h2, _⟩ := buildAssignmentMap_some_spec rows uid _ _ _ _ _ _ h
              exact ⟨hmem, h1, h2⟩
        · rcases hm2 : buildAssignmentMap rows uid [c.id] (crawlerKeyIds c)
              (crawlerGroupIds c) "api_key" k with _ | a2
          · rcases cgr : c.group_id with _ | g
            · simp [hm1, capi, cgr, hk0, hm2] at h
            · by_cases hg0 : g = 0
              · simp [hm1, capi, cgr, hk0, hg0, hm2] at h
              · simp [hm1, capi, cgr, hk0, hg0, hm2] at h
                obtain ⟨hmem, h1, h2, _⟩ := buildAssignmentMap_some_spec rows uid _ _ _ _ _ _ h
                exact ⟨hmem, h1, h2⟩
          · simp [hm1, capi, hk0, hm2] at h
            subst h
            obtain ⟨hmem, h1, h2, _⟩ := buildAssignmentMap_some_spec rows uid _ _ _ _ _ _ hm2
            exact ⟨hmem, h1, h2⟩
    · simp [hm1] at h
      subst h
      obtain ⟨hmem, h1, h2, _⟩ := buildAssignmentMap_some_spec rows uid _ _ _ _ _ _ hm1
      exact ⟨hmem, h1, h2⟩
  · -- (2) crawler-level precedence
    intro hex
    obtain ⟨a1, hm1⟩ := buildAssignmentMap_isSome rows uid [c.id] (crawlerKeyIds c)
      (crawlerGroupIds c) "crawler" c.id hne (by
        obtain ⟨a, ha, hact⟩ := hex
        exact ⟨a, ha, hact, by simp [assignmentCondMatches, hact.2.2.1, hact.2.2.2]⟩)
    refine ⟨a1, ?_, (buildAssignmentMap_some_spec rows uid _ _ _ _ _ _ hm1).2⟩
    unfold getEffectiveAssignment resolveAssignmentFromMap
    rw [hm1]
  · -- (3) credential-level fallback
    intro k capi hk0 hnoc hex
    have hm1 := hnone_of_not "crawler" c.id hnoc
    obtain ⟨a2, hm2⟩ := buildAssignmentMap_isSome rows uid [c.id] (crawlerKeyIds c)
      (crawlerGroupIds c) "api_key" k hne (by
        obtain ⟨a, ha, hact⟩ := hex
        refine ⟨a, ha, hact, ?_⟩
        simp [assignmentCondMatches, hact.2.2.1, hact.2.2.2, crawlerKeyIds, capi, hk0])
    refine ⟨a2, ?_, (buildAssignmentMap_some_spec rows uid _ _ _ _ _ _ hm2).2⟩
    unfold getEffectiveAssignment resolveAssignmentFromMap
    simp [hm1, capi, hk0, hm2]
  · -- (4) group-level fallback
    intro g cgr hg0 hnoc hnok hex
    have hm1 := hnone_of_not "crawler" c.id hnoc
    obtain ⟨a3, hm3⟩ := buildAssignmentMap_isSome rows uid [c.id] (crawlerKeyIds c)
      (crawlerGroupIds c) "group" g hne (by
        obtain ⟨a, ha, hact⟩ := hex
        refine ⟨a, ha, hact, ?_⟩
        simp [assignmentCondMatches, hact.2.2.1, hact.2.2.2, crawlerGroupIds, cgr, hg0])
    refine ⟨a3, ?_, (buildAssignmentMap_some_spec rows uid _ _ _ _ _ _ hm3).2⟩
    unfold getEffectiveAssignment resolveAssignmentFromMap
    rcases capi : c.api_key_id with _ | k
    · simp [hm1, capi, cgr, hg0, hm3]
    · by_cases hk0 : k = 0
      · simp [hm1, capi, cgr, hg0, hk0, hm3]
      · have hm2 := hnone_of_not "api_key" k (hnok k capi)
        simp [hm1, capi, cgr, hg0, hk0, hm2, hm3]
  · -- (5) no-config sentinel
    intro hnoc hnok hnog
    have hm1 := hnone_of_not "crawler" c.id hnoc
    unfold getEffectiveAssignment resolveAssignmentFromMap
    rcases capi : c.api_key_id with _ | k
    · rcases cgr : c.group_id with _ | g
      · simp [hm1, capi, cgr]
      · by_cases hg0 : g = 0
        · simp [hm1, capi, cgr, hg0]
        · have hm3 := hnone_of_not "group" g (hnog g cgr)
          simp [hm1, capi, cgr, hg0, hm3]
    · have htail : ∀ hk2 : Option ConfigAssignment, hk2 = none →
          (match hk2 with
            | some a => some a
            | none =>
              match c.group_id with
              | some g =>
                if g = 0 then none
                else buildAssignmentMap rows uid [c.id] (crawlerKeyIds c)
                    (crawlerGroupIds c) "group" g
              | none => none) = (none : Option ConfigAssignment) := by
        intro hk2 hk2none
        subst hk2none
        rcases cgr : c.group_id with _ | g
        · simp
        · by_cases hg0 : g = 0
          · simp [hg0]
          · have hm3 := hnone_of_not "group" g (hnog g cgr)
            simp [hg0, hm3]
      by_cases hk0 : k = 0
      · simp only [hm1, capi]
        rw [if_pos hk0]
        exact htail none rfl
      · have hm2 := hnone_of_not "api_key" k (hnok k capi)
        simp only [hm1, capi]
        rw [if_neg hk0]
        exact htail _ hm2

/-! ## C6 witness, C7: command pull -/

/-- Witness for C6: with active assignments overlapping at all three
levels, the crawler-level one is returned. -/
theorem getEffectiveAssignment_precedence_witness :
    ∃ a, getEffectiveAssignment overlappingAssignments 7
        { scenarioCrawler with group_id := some 5 } = some a ∧
      activeAt 7 "crawler" { scenarioCrawler with group_id := some 5 }.id a :=
  (getEffectiveAssignment_precedence overlappingAssignments 7
      { scenarioCrawler with group_id := some 5 }).2.1
    ⟨crawlerLevelAssignment, by decide, ⟨rfl, rfl, rfl, rfl⟩⟩

/-- C7: a command pull returns at most 5 commands, all of them pending
rows of the store belonging to the crawler whose `expires_at` is null or
not in the past (so pending commands whose `expires_at` has passed are
excluded), ordered by creation time ascending. -/
theorem fetchCommands_spec (store : List Command) (crawlerId nowT : Int) :
    (fetchCommands store crawlerId nowT).length ≤ 5 ∧
    (∀ cmd ∈ fetchCommands store crawlerId nowT,
      cmd ∈ store ∧ cmd.status = "pending" ∧ cmd.crawler_id = crawlerId ∧
        (cmd.expires_at = none ∨ ∃ e, cmd.expires_at = some e ∧ nowT ≤ e)) ∧
    List.Pairwise (fun a b => a.created_at ≤ b.created_at)
      (fetchCommands store crawlerId nowT) := by
  refine ⟨?_, ?_, ?_⟩
  · unfold fetchCommands
    simp [List.length_take, COMMAND_FETCH_BATCH]
  · intro cmd hmem
    unfold fetchCommands at hmem
    have h1 := List.mem_of_mem_take hmem
    have h2 := (List.mergeSort_perm _ commandCreatedLe).mem_iff.mp h1
    rw [List.mem_filter] at h2
    obtain ⟨hmem2, hpred⟩ := h2
    unfold commandPendingFresh at hpred
    simp only [Bool.and_eq_true, decide_eq_true_eq] at hpred
    refine ⟨hmem2, hpred.1.2, hpred.1.1, ?_⟩
    rcases hexp : cmd.expires_at with _ | e
    · exact Or.inl rfl
    · refine Or.inr ⟨e, rfl, ?_⟩
      have h3 := hpred.2
      rw [hexp] at h3
      simpa using h3
  · unfold fetchCommands
    have htrans : ∀ a b c : Command, commandCreatedLe a b = true →
        commandCreatedLe b c = true → commandCreatedLe a c = true := by
      intro a b c hab hbc
      unfold commandCreatedLe at *
      simp only [decide_eq_true_eq] at *
      omega
    have htotal : ∀ a b : Command,
        (commandCreatedLe a b || commandCreatedLe b a) = true := by
      intro a b
      unfold commandCreatedLe
      simp only [Bool.or_eq_true, decide_eq_true_eq]
      omega
    have hs := @List.sorted_mergeSort Command commandCreatedLe htrans htotal
      (store.filter (commandPendingFresh crawlerId nowT))
    have hp := List.Pairwise.sublist
      (List.take_sublist COMMAND_FETCH_BATCH
        ((store.filter (commandPendingFresh crawlerId nowT)).mergeSort commandCreatedLe)) hs
    exact hp.imp (by
      intro a b hab
      unfold commandCreatedLe at hab
      simpa using hab)

/-- Witness for C7 at a one-command store. -/
theorem fetchCommands_spec_witness :
    sampleCommand ∈ [sampleCommand] ∧ sampleCommand.status = "pending" ∧
      sampleCommand.crawler_id = 1 ∧
      (sampleCommand.expires_at = none ∨
        ∃ e, sampleCommand.expires_at = some e ∧ (0 : Int) ≤ e) :=
  (fetchCommands_spec [sampleCommand] 1 0).2.1 sampleCommand (by
    have h : fetchCommands [sampleCommand] 1 0 = [sampleCommand] := by
      simp [fetchCommands, commandPendingFresh, sampleCommand, COMMAND_FETCH_BATCH]
    simp [h])

/-! ## C8: command acknowledgement is idempotent by id -/

/-- In a store with pairwise distinct primary keys, filtering by a
member's id keeps exactly that row. -/
theorem filter_id_eq_singleton {l : List Command}
    (hnd : (l.map fun c => c.id).Nodup) {cmd : Command} (hmem : cmd ∈ l) :
    l.filter (fun c => decide (c.id = cmd.id)) = [cmd] := by
  induction l with
  | nil => cases hmem
  | cons x xs ih =>
    rw [List.map_cons, List.nodup_cons] at hnd
    obtain ⟨hx, hxs⟩ := hnd
    rcases List.mem_cons.mp hmem with rfl | hmem2
    · rw [List.filter_cons_of_pos (by simp)]
      have hnil : xs.filter (fun c => decide (c.id = cmd.id)) = [] := by
        rw [List.filter_eq_nil_iff]
        intro a ha
        simp only [decide_eq_true_eq]
        intro heq
        exact hx (heq ▸ List.mem_map_of_mem (fun c => c.id) ha)
      rw [hnil]
    · have hxid : ¬ (x.id = cmd.id) := by
        intro heq
        exact hx (heq ▸ List.mem_map_of_mem (fun c => c.id) hmem2)
      rw [List.filter_cons_of_neg (by simpa using hxid)]
      exact ih hxs hmem2

/-- C8: acknowledging an existing command twice succeeds both times and
leaves a store of unchanged size in which exactly one row carries the
command id, and that row's status, result and `processed_at` reflect the
second (last) acknowledgement. -/
theorem acknowledgeCommand_idempotent (store : List Command)
    (crawlers : List Crawler) (userId crawlerId commandId : Int)
    (p1 p2 : CommandAck) (t1 t2 : Int)
    (hnd : (store.map fun c => c.id).Nodup)
    (hex : ∃ cmd ∈ store, commandOwned crawlers userId crawlerId commandId cmd = true) :
    ∃ store1 store2 updated,
      acknowledgeCommand store crawlers userId crawlerId commandId p1 t1 = .ok store1 ∧
      acknowledgeCommand store1 crawlers userId crawlerId commandId p2 t2 = .ok store2 ∧
      store2.length = store.length ∧
      store2.filter (fun c => decide (c.id = commandId)) = [updated] ∧
      updated.status = ackStatus p2 ∧ updated.result = ackResult p2 ∧
      updated.processed_at = some t2 := by
  obtain ⟨cmd, hcm, hpo⟩ := hex
  have hid : cmd.id = commandId := by
    have := hpo
    unfold commandOwned at this
    simp only [Bool.and_eq_true, decide_eq_true_eq] at this
    exact this.1.1
  have hPack : ∀ (p : CommandAck) (t : Int) (c : Command),
      commandOwned crawlers userId crawlerId commandId (ackApply p t c) =
        commandOwned crawlers userId crawlerId commandId c := fun _ _ _ => rfl
  have hIdack : ∀ (p : CommandAck) (t : Int) (c : Command),
      (ackApply p t c).id = c.id := fun _ _ _ => rfl
  obtain ⟨c0, hf0⟩ := Option.isSome_iff_exists.mp
    (List.find?_isSome.mpr ⟨cmd, hcm, hpo⟩)
  set f1 : Command → Command := fun c =>
    if commandOwned crawlers userId crawlerId commandId c then ackApply p1 t1 c else c
    with hf1def
  set f2 : Command → Command := fun c =>
    if commandOwned crawlers userId crawlerId commandId c then ackApply p2 t2 c else c
    with hf2def
  have hack1 : acknowledgeCommand store crawlers userId crawlerId commandId p1 t1
      = .ok (store.map f1) := by
    unfold acknowledgeCommand
    rw [hf0]
    exact rfl
  have hmem1 : f1 cmd ∈ store.map f1 := List.mem_map_of_mem f1 hcm
  have hf1cmd : f1 cmd = ackApply p1 t1 cmd := by
    rw [hf1def]
    simp only [hpo, if_true]
  have hpo1 : commandOwned crawlers userId crawlerId commandId (f1 cmd) = true := by
    rw [hf1cmd, hPack]
    exact hpo
  obtain ⟨c1, hf1⟩ := Option.isSome_iff_exists.mp
    (List.find?_isSome.mpr ⟨f1 cmd, hmem1, hpo1⟩)
  have hack2 : acknowledgeCommand (store.map f1) crawlers userId crawlerId commandId p2 t2
      = .ok ((store.map f1).map f2) := by
    unfold acknowledgeCommand
    rw [hf1]
    exact rfl
  have hidf : ∀ (g : Command → Command), (∀ c, (g c).id = c.id) →
      ∀ (l : List Command), (l.map g).filter (fun c => decide (c.id = commandId))
        = (l.filter (fun c => decide (c.id = commandId))).map g := by
    intro g hg l
    rw [List.filter_map]
    have : ((fun c => decide (c.id = commandId)) ∘ g)
        = fun c => decide (c.id = commandId) := by
      funext c
      simp [Function.comp, hg]
    rw [this]
  have hidf1 : ∀ c, (f1 c).id = c.id := by
    intro c
    rw [hf1def]
    by_cases h : commandOwned crawlers userId crawlerId commandId c <;> simp [h, hIdack]
  have hidf2 : ∀ c, (f2 c).id = c.id := by
    intro c
    rw [hf2def]
    by_cases h : commandOwned crawlers userId crawlerId commandId c <;> simp [h, hIdack]
  have hsingle : store.filter (fun c => decide (c.id = commandId)) = [cmd] := by
    rw [← hid]
    exact filter_id_eq_singleton hnd hcm
  refine ⟨store.map f1, (store.map f1).map f2, f2 (f1 cmd), hack1, hack2, by simp, ?_, ?_, ?_, ?_⟩
  · rw [hidf f2 hidf2, hidf f1 hidf1, hsingle]
    simp
  · have h2 : f2 (f1 cmd) = ackApply p2 t2 (f1 cmd) := by
      rw [hf2def]
      simp only [hpo1, if_true]
    rw [h2]
    exact rfl
  · have h2 : f2 (f1 cmd) = ackApply p2 t2 (f1 cmd) := by
      rw [hf2def]
      simp only [hpo1, if_true]
    rw [h2]
    exact rfl
  · have h2 : f2 (f1 cmd) = ackApply p2 t2 (f1 cmd) := by
      rw [hf2def]
      simp only [hpo1, if_true]
    rw [h2]
    exact rfl

/-- Witness for C8: acknowledging command 11 twice with different
payloads. -/
theorem acknowledgeCommand_idempotent_witness :
    ∃ store1 store2 updated,
      acknowledgeCommand [sampleCommand] [scenarioCrawler] 7 1 11 firstAck 50 = .ok store1 ∧
      acknowledgeCommand store1 [scenarioCrawler] 7 1 11 secondAck 60 = .ok store2 ∧
      store2.length = [sampleCommand].length ∧
      store2.filter (fun c => decide (c.id = 11)) = [updated] ∧
      updated.status = ackStatus secondAck ∧ updated.result = ackResult secondAck ∧
      updated.processed_at = some 60 :=
  acknowledgeCommand_idempotent [sampleCommand] [scenarioCrawler] 7 1 11
    firstAck secondAck 50 60 (by decide) ⟨sampleCommand, by decide, by decide⟩

/-! ## C9: assignment version bumping -/

/-- A successful name edit changes neither version nor content. -/
theorem applyAssignmentName_frame (p : AssignmentUpdate) (a a' : ConfigAssignment)
    (h : applyAssignmentName p a = .ok a') :
    a'.version = a.version ∧ a'.content = a.content := by
  unfold applyAssignmentName at h
  rcases hn : p.name with _ | n
  · simp only [hn] at h
    cases h
    exact ⟨rfl, rfl⟩
  · simp only [hn] at h
    by_cases he : pyStrip n = ""
    · simp only [he, if_pos] at h
      cases h
    · rw [if_neg he] at h
      cases h
      exact ⟨rfl, rfl⟩

/-- The description edit changes neither version nor content. -/
theorem applyAssignmentDescription_frame (p : AssignmentUpdate)
    (a : ConfigAssignment) :
    (applyAssignmentDescription p a).version = a.version ∧
    (applyAssignmentDescription p a).content = a.content := by
  constructor <;> (unfold applyAssignmentDescription; split <;> rfl)

/-- The format edit changes neither version nor content. -/
theorem applyAssignmentFormat_frame (p : AssignmentUpdate)
    (a : ConfigAssignment) :
    (applyAssignmentFormat p a).version = a.version ∧
    (applyAssignmentFormat p a).content = a.content := by
  constructor <;> (unfold applyAssignmentFormat; split <;> rfl)

/-- The template rebinding changes the version of nothing. -/
theorem applyAssignmentTemplate_version (p : AssignmentUpdate)
    (a : ConfigAssignment) :
    (applyAssignmentTemplate p a).version = a.version := by
  unfold applyAssignmentTemplate
  split
  · rfl
  · split <;> rfl

/-- The is_active toggle changes the version of nothing. -/
theorem applyAssignmentActive_version (p : AssignmentUpdate)
    (a : ConfigAssignment) :
    (applyAssignmentActive p a).version = a.version := by
  unfold applyAssignmentActive
  split <;> rfl

/-- A successful content edit with stripped content differing from the
stored document bumps the version by exactly one; an update without a
content field keeps it. -/
theorem applyAssignmentContent_version (p : AssignmentUpdate)
    (a a' : ConfigAssignment) :
    (∀ c, p.content = some c → pyStrip c ≠ a.content →
      applyAssignmentContent p a = .ok a' → a'.version = a.version + 1) ∧
    (p.content = none → applyAssignmentContent p a = .ok a' →
      a'.version = a.version) := by
  constructor
  · intro c hc hne h
    unfold applyAssignmentContent at h
    simp only [hc] at h
    by_cases he : pyStrip c = ""
    · simp only [he, if_pos] at h
      cases h
    · rw [if_neg he, if_pos hne] at h
      cases h
      rfl
  · intro hc h
    unfold applyAssignmentContent at h
    simp only [hc] at h
    cases h
    rfl

/-- C9: an update supplying content that (after stripping) differs from
the stored document increments the assignment's version by exactly one,
whatever other metadata it also edits; an update supplying no content —
metadata only (name, description, format, template binding, is_active) —
leaves the version unchanged. -/
theorem updateConfigAssignment_version (a a' : ConfigAssignment)
    (p : AssignmentUpdate) :
    (∀ c, p.content = some c → pyStrip c ≠ a.content →
      updateConfigAssignment a p = .ok a' → a'.version = a.version + 1) ∧
    (p.content = none → updateConfigAssignment a p = .ok a' →
      a'.version = a.version) := by
  constructor
  · intro c hc hne h
    unfold updateConfigAssignment at h
    rcases h1 : applyAssignmentName p a with e | a1
    · rw [h1] at h
      cases h
    · rw [h1] at h
      simp only [bind, Except.bind] at h
      obtain ⟨hv1, hc1⟩ := applyAssignmentName_frame p a a1 h1
      obtain ⟨hv2, hc2⟩ := applyAssignmentDescription_frame p a1
      obtain ⟨hv3, hc3⟩ := applyAssignmentFormat_frame p (applyAssignmentDescription p a1)
      rcases h4 : applyAssignmentContent p
          (applyAssignmentFormat p (applyAssignmentDescription p a1)) with e | a4
      · rw [h4] at h
        cases h
      · rw [h4] at h
        simp only [pure, Except.pure, Except.ok.injEq] at h
        have hv4 : a4.version =
            (applyAssignmentFormat p (applyAssignmentDescription p a1)).version + 1 :=
          (applyAssignmentContent_version p _ a4).1 c hc
            (by rw [hc3, hc2, hc1]; exact hne) h4
        rw [← h, applyAssignmentActive_version, applyAssignmentTemplate_version,
          hv4, hv3, hv2, hv1]
  · intro hc h
    unfold updateConfigAssignment at h
    rcases h1 : applyAssignmentName p a with e | a1
    · rw [h1] at h
      cases h
    · rw [h1] at h
      simp only [bind, Except.bind] at h
      obtain ⟨hv1, hc1⟩ := applyAssignmentName_frame p a a1 h1
      obtain ⟨hv2, hc2⟩ := applyAssignmentDescription_frame p a1
      obtain ⟨hv3, hc3⟩ := applyAssignmentFormat_frame p (applyAssignmentDescription p a1)
      rcases h4 : applyAssignmentContent p
          (applyAssignmentFormat p (applyAssignmentDescription p a1)) with e | a4
      · rw [h4] at h
        cases h
      · rw [h4] at h
        simp only [pure, Except.pure, Except.ok.injEq] at h
        have hv4 : a4.version =
            (applyAssignmentFormat p (applyAssignmentDescription p a1)).version :=
          (applyAssignmentContent_version p _ a4).2 hc h4
        rw [← h, applyAssignmentActive_version, applyAssignmentTemplate_version,
          hv4, hv3, hv2, hv1]

/-- Witness for C9 at concrete inputs: a content edit bumps version 1 to
2; a metadata-only edit keeps version 1. -/
theorem updateConfigAssignment_version_witness :
    bumpedAssignment.version = crawlerLevelAssignment.version + 1 ∧
    renamedAssignment.version = crawlerLevelAssignment.version :=
  ⟨(updateConfigAssignment_version crawlerLevelAssignment bumpedAssignment
        contentUpdate).1 "interval: 60" rfl (by decide) (by rfl),
   (updateConfigAssignment_version crawlerLevelAssignment renamedAssignment
        metadataUpdate).2 rfl (by rfl)⟩

/-! ## C4: quota enforcement convergence -/

/-- The loop's exit test: a zero `need_delete` means both finite ceilings
are respected. -/
theorem needDeleteCount_eq_zero (maxL maxB lines bytes : Nat)
    (h : needDeleteCount (some maxL) (some maxB) lines bytes = 0) :
    lines ≤ maxL ∧ bytes ≤ maxB := by
  unfold needDeleteCount at h
  simp only [Nat.max_eq_zero_iff] at h
  obtain ⟨h1, h2⟩ := h
  constructor
  · by_cases hl : maxL < lines
    · rw [if_pos hl] at h1
      simp [TRIM_CHUNK, Nat.min_eq_zero_iff] at h1
      omega
    · omega
  · by_cases hb : maxB < bytes
    · rw [if_pos hb] at h2
      simp [TRIM_CHUNK] at h2
    · omega

/-- Whenever the loop exits by convergence (cap flag false) the remaining
usage is within both finite ceilings, whatever the fuel. -/
theorem enforceLoop_converged (maxL maxB : Nat) :
    ∀ (fuel : Nat) (logs : List Nat),
      (enforceLoop (some maxL) (some maxB) fuel logs).2 = false →
      (enforceLoop (some maxL) (some maxB) fuel logs).1.length ≤ maxL ∧
      (enforceLoop (some maxL) (some maxB) fuel logs).1.sum ≤ maxB := by
  intro fuel
  induction fuel with
  | zero =>
    intro logs h
    unfold enforceLoop at h ⊢
    by_cases hnd : needDeleteCount (some maxL) (some maxB) logs.length logs.sum = 0
    · rw [if_pos hnd] at h ⊢
      exact needDeleteCount_eq_zero maxL maxB logs.length logs.sum hnd
    · rw [if_neg hnd] at h
      cases h
  | succ fuel ih =>
    intro logs h
    unfold enforceLoop at h ⊢
    by_cases hnd : needDeleteCount (some maxL) (some maxB) logs.length logs.sum = 0
    · rw [if_pos hnd] at h ⊢
      exact needDeleteCount_eq_zero maxL maxB logs.length logs.sum hnd
    · rw [if_neg hnd] at h ⊢
      exact ih _ h

/-- C4: per-crawler quota enforcement with finite effective limits is a
total function of the log store (the loop terminates within the
hard cap of 20 delete-and-remeasure rounds by construction), and when it
returns, either the measured line count and byte count are within the
ceilings, or the loop exited through the 20-round iteration cap. -/
theorem enforceCrawlerLimits_bounds (maxL maxB : Nat) (logs : List Nat) :
    (enforceCrawlerLimits (some maxL) (some maxB) logs).2 = true ∨
    ((enforceCrawlerLimits (some maxL) (some maxB) logs).1.length ≤ maxL ∧
     (enforceCrawlerLimits (some maxL) (some maxB) logs).1.sum ≤ maxB) := by
  rcases hb : (enforceCrawlerLimits (some maxL) (some maxB) logs).2 with _ | _
  · right
    exact enforceLoop_converged maxL maxB 19 logs hb
  · left
    rfl

end Allyend
